import Mathlib

/-!
Verification of `src/ttkbootstrap/window.py`.

The module defines two classes, `Window` (wrapping `tkinter.Tk`) and
`Toplevel` (wrapping `tkinter.Toplevel`).  Each constructor issues a
sequence of calls against the underlying Tk toolkit, guarded by
`is not None` / truthiness checks, and each class exposes a
`place_window_center` method (aliased `position_center`).

The embedding below models every toolkit call as a constructor of
`TkCall`; a constructor or method is embedded as the list of calls it
issues (its trace).  The guarded configuration calls are additionally
modelled as `Step` values together with a state semantics `runStep`
on a record `WinConfig` of the window-manager settings each call
touches; `stepCalls` relates the two levels.  Queried values
(windowing system, screen and window dimensions, whether the shared
icon assignment raises `TclError`) enter as parameters.
-/

/-- A value passed as the second argument of a Tk `attributes` call:
`-type` receives a string, `-topmost` / `-toolwindow` receive the
integer 1, `-alpha` receives a number (modelled as a rational). -/
inductive AttrV
  | int (n : Int)
  | str (s : String)
  | rat (q : ℚ)
  deriving DecidableEq

/-- The icon object assigned to `self._icon`: either the `iconphoto`
argument supplied by the caller (identified by a string key) or the
package default `tkinter.PhotoImage(data=Icon.icon)`. -/
inductive IconV
  | given (img : String)
  | defaultIcon
  deriving DecidableEq

/-- Python `a or b` where `a` is an optional `PhotoImage` argument
(`None` is falsy, any `PhotoImage` object is truthy) and `b` is the
default-icon expression.  Embeds `iconphoto or tkinter.PhotoImage(data=Icon.icon)`. -/
def pyOr (a : Option String) (b : IconV) : IconV :=
  match a with
  | some img => IconV.given img
  | none => b

/-- One call issued against the underlying toolkit by `window.py`. -/
inductive TkCall
  | enableHdpi
  | superInit
  | queryWinsys
  | enableHdpiScaling (scaling : ℚ)
  | iconphoto (applyToFuture : Bool) (icon : IconV)
  | setTitle (t : String)
  | geometry (g : String)
  | minsize (w h : Int)
  | maxsize (w h : Int)
  | resizable (w h : Bool)
  | transient (master : String)
  | overrideredirect (flag : Int)
  | waitVisibility
  | attributes (name : String) (v : AttrV)
  | bindClass (cls seq fn add : String)
  | styleInit (theme : String)
  | updateIdletasks
  deriving DecidableEq

/-- `true` exactly on `geometry` calls. -/
def isGeometryCall : TkCall → Bool
  | TkCall.geometry _ => true
  | _ => false

/-- One guarded configuration step of a constructor body. -/
inductive Step
  | setTitle (t : String)
  | setSize (w h : Int)
  | setPosition (x y : Int)
  | setMinsize (w h : Int)
  | setMaxsize (w h : Int)
  | setResizable (w h : Bool)
  | setTransient (master : String)
  | setOverrideredirect
  | setWindowtype (t : String)
  | setTopmost
  | setToolwindow
  | setAlpha (onX11 : Bool) (a : ℚ)
  deriving DecidableEq

/-- The toolkit calls a configuration step issues. -/
def stepCalls : Step → List TkCall
  | Step.setTitle t => [TkCall.setTitle t]
  | Step.setSize w h => [TkCall.geometry s!"{w}x{h}"]
  | Step.setPosition x y => [TkCall.geometry s!"+{x}+{y}"]
  | Step.setMinsize w h => [TkCall.minsize w h]
  | Step.setMaxsize w h => [TkCall.maxsize w h]
  | Step.setResizable w h => [TkCall.resizable w h]
  | Step.setTransient m => [TkCall.transient m]
  | Step.setOverrideredirect => [TkCall.overrideredirect 1]
  | Step.setWindowtype t => [TkCall.attributes "-type" (AttrV.str t)]
  | Step.setTopmost => [TkCall.attributes "-topmost" (AttrV.int 1)]
  | Step.setToolwindow => [TkCall.attributes "-toolwindow" (AttrV.int 1)]
  | Step.setAlpha onX11 a =>
      (if onX11 then [TkCall.waitVisibility] else []) ++ [TkCall.attributes "-alpha" (AttrV.rat a)]

/-- A numeric tag distinguishing the kind of a configuration step;
two steps of one constructor trace never share a kind. -/
def stepKind : Step → Nat
  | Step.setTitle _ => 0
  | Step.setSize _ _ => 1
  | Step.setPosition _ _ => 2
  | Step.setMinsize _ _ => 3
  | Step.setMaxsize _ _ => 4
  | Step.setResizable _ _ => 5
  | Step.setTransient _ => 6
  | Step.setOverrideredirect => 7
  | Step.setWindowtype _ => 8
  | Step.setTopmost => 9
  | Step.setToolwindow => 10
  | Step.setAlpha _ _ => 11

/-- The window-manager configuration a window accumulates: each field
records the last value set by the corresponding toolkit call, `none`
meaning the call was never issued.  A size-only geometry string sets
`size`, a position-only geometry string sets `pos`. -/
structure WinConfig where
  title : Option String
  size : Option (Int × Int)
  pos : Option (Int × Int)
  minsz : Option (Int × Int)
  maxsz : Option (Int × Int)
  resiz : Option (Bool × Bool)
  transientMaster : Option String
  overrideRedirect : Option Int
  attrType : Option String
  attrTopmost : Option Int
  attrToolwindow : Option Int
  attrAlpha : Option ℚ
  deriving DecidableEq

/-- A window with no configuration set. -/
def initialWinConfig : WinConfig :=
  ⟨none, none, none, none, none, none, none, none, none, none, none, none⟩

/-- Effect of one configuration step on the window configuration. -/
def runStep (st : Step) (w : WinConfig) : WinConfig :=
  match st with
  | Step.setTitle t => { w with title := some t }
  | Step.setSize a b => { w with size := some (a, b) }
  | Step.setPosition x y => { w with pos := some (x, y) }
  | Step.setMinsize a b => { w with minsz := some (a, b) }
  | Step.setMaxsize a b => { w with maxsz := some (a, b) }
  | Step.setResizable a b => { w with resiz := some (a, b) }
  | Step.setTransient m => { w with transientMaster := some m }
  | Step.setOverrideredirect => { w with overrideRedirect := some 1 }
  | Step.setWindowtype t => { w with attrType := some t }
  | Step.setTopmost => { w with attrTopmost := some 1 }
  | Step.setToolwindow => { w with attrToolwindow := some 1 }
  | Step.setAlpha _ a => { w with attrAlpha := some a }

/-- Run a list of configuration steps in order. -/
def applySteps (init : WinConfig) (l : List Step) : WinConfig :=
  l.foldl (fun w s => runStep s w) init

/-- `if size is not None: width, height = size; self.geometry(f"{width}x{height}")` -/
def sizeSteps : Option (Int × Int) → List Step
  | some (w, h) => [Step.setSize w h]
  | none => []

/-- `if position is not None: xpos, ypos = position; self.geometry(f"+{xpos}+{ypos}")` -/
def positionSteps : Option (Int × Int) → List Step
  | some (x, y) => [Step.setPosition x y]
  | none => []

/-- `if minsize is not None: width, height = minsize; self.minsize(width, height)` -/
def minsizeSteps : Option (Int × Int) → List Step
  | some (w, h) => [Step.setMinsize w h]
  | none => []

/-- `if maxsize is not None: width, height = maxsize; self.maxsize(width, height)` -/
def maxsizeSteps : Option (Int × Int) → List Step
  | some (w, h) => [Step.setMaxsize w h]
  | none => []

/-- `if resizable is not None: width, height = resizable; self.resizable(width, height)` -/
def resizableSteps : Option (Bool × Bool) → List Step
  | some (w, h) => [Step.setResizable w h]
  | none => []

/-- `if transient is not None: self.transient(transient)` -/
def transientSteps : Option String → List Step
  | some m => [Step.setTransient m]
  | none => []

/-- `if overrideredirect: self.overrideredirect(1)` -/
def overrideredirectSteps (b : Bool) : List Step :=
  if b then [Step.setOverrideredirect] else []

/-- `if windowtype is not None: if winsys == 'x11': self.attributes("-type", windowtype)` -/
def windowtypeSteps (x : Option String) (winsys : String) : List Step :=
  match x with
  | some t => if winsys = "x11" then [Step.setWindowtype t] else []
  | none => []

/-- `if topmost: self.attributes("-topmost", 1)` -/
def topmostSteps (b : Bool) : List Step :=
  if b then [Step.setTopmost] else []

/-- `if toolwindow: if winsys == 'win32': self.attributes("-toolwindow", 1)` -/
def toolwindowSteps (b : Bool) (winsys : String) : List Step :=
  if b then (if winsys = "win32" then [Step.setToolwindow] else []) else []

/-- `if alpha is not None: if winsys == 'x11': self.wait_visibility(self); self.attributes("-alpha", alpha)` -/
def alphaSteps (al : Option ℚ) (winsys : String) : List Step :=
  match al with
  | some a => [Step.setAlpha (winsys = "x11") a]
  | none => []

/-- Keyword options of `Window.__init__` with their Python defaults
(`alpha=1.0` is an optional float: passing `None` skips the call). -/
structure WindowOpts where
  title : String := "ttkbootstrap"
  themename : String := "litera"
  iconphoto : Option String := none
  size : Option (Int × Int) := none
  position : Option (Int × Int) := none
  minsize : Option (Int × Int) := none
  maxsize : Option (Int × Int) := none
  resizable : Option (Bool × Bool) := none
  hdpi : Bool := true
  scaling : Option ℚ := none
  transient : Option String := none
  overrideredirect : Bool := false
  alpha : Option ℚ := some 1
  deriving DecidableEq

/-- Keyword options of `Toplevel.__init__` with their Python defaults. -/
structure ToplevelOpts where
  title : String := "ttkbootstrap"
  iconphoto : Option String := none
  size : Option (Int × Int) := none
  position : Option (Int × Int) := none
  minsize : Option (Int × Int) := none
  maxsize : Option (Int × Int) := none
  resizable : Option (Bool × Bool) := none
  transient : Option String := none
  overrideredirect : Bool := false
  windowtype : Option String := none
  topmost : Bool := false
  toolwindow : Bool := false
  alpha : Option ℚ := some 1
  deriving DecidableEq

/-- The guarded configuration steps of `Window.__init__` in the order
the code issues them: title, size, position, minsize, maxsize,
resizable, transient, overrideredirect, alpha. -/
def Window.configSteps (o : WindowOpts) (winsys : String) : List Step :=
  [Step.setTitle o.title]
    ++ sizeSteps o.size
    ++ positionSteps o.position
    ++ minsizeSteps o.minsize
    ++ maxsizeSteps o.maxsize
    ++ resizableSteps o.resizable
    ++ transientSteps o.transient
    ++ overrideredirectSteps o.overrideredirect
    ++ alphaSteps o.alpha winsys

/-- The guarded configuration steps of `Toplevel.__init__` in the order
the code issues them. -/
def Toplevel.configSteps (o : ToplevelOpts) (winsys : String) : List Step :=
  [Step.setTitle o.title]
    ++ sizeSteps o.size
    ++ positionSteps o.position
    ++ minsizeSteps o.minsize
    ++ maxsizeSteps o.maxsize
    ++ resizableSteps o.resizable
    ++ transientSteps o.transient
    ++ overrideredirectSteps o.overrideredirect
    ++ windowtypeSteps o.windowtype winsys
    ++ topmostSteps o.topmost
    ++ toolwindowSteps o.toolwindow winsys
    ++ alphaSteps o.alpha winsys

/-- `if hdpi: utility.enable_high_dpi_awareness()` -/
def hdpiCalls (b : Bool) : List TkCall :=
  if b then [TkCall.enableHdpi] else []

/-- `if scaling is not None: utility.enable_high_dpi_awareness(self, scaling)` -/
def scalingCalls : Option ℚ → List TkCall
  | some s => [TkCall.enableHdpiScaling s]
  | none => []

/-- The `try`-guarded icon block of `Window.__init__`:
`self._icon = iconphoto or tkinter.PhotoImage(data=Icon.icon); self.iconphoto(True, self._icon)`,
with a `tkinter.TclError` (flagged by `iconFails`) suppressed by the
surrounding `except ... pass`. -/
def windowIconBlock (iconphoto : Option String) (iconFails : Bool) : List TkCall :=
  if iconFails then [] else [TkCall.iconphoto true (pyOr iconphoto IconV.defaultIcon)]

/-- The icon block of `Toplevel.__init__`:
`if iconphoto: self._icon = iconphoto or tkinter.PhotoImage(data=Icon.icon); self.iconphoto(False, self._icon)`. -/
def toplevelIconBlock (iconphoto : Option String) : List TkCall :=
  if iconphoto.isSome then [TkCall.iconphoto false (pyOr iconphoto IconV.defaultIcon)] else []

/-- The three class-wide bindings issued by
`Window._apply_entry_type_class_binding`. -/
def Window.apply_entry_type_class_binding : List TkCall :=
  [TkCall.bindClass "TEntry" "<Configure>" "_disabled_state_cursor" "+",
   TkCall.bindClass "TSpinbox" "<Configure>" "_disabled_state_cursor" "+",
   TkCall.bindClass "TCombobox" "<Configure>" "_disabled_state_cursor" "+"]

/-- Calls of `Window.__init__` before the icon block. -/
def Window.preIconCalls (o : WindowOpts) : List TkCall :=
  hdpiCalls o.hdpi ++ [TkCall.superInit, TkCall.queryWinsys] ++ scalingCalls o.scaling

/-- Calls of `Window.__init__` after the icon block: the guarded
configuration steps, the entry-class bindings, and `Style(themename)`. -/
def Window.postIconCalls (o : WindowOpts) (winsys : String) : List TkCall :=
  (Window.configSteps o winsys).flatMap stepCalls
    ++ Window.apply_entry_type_class_binding
    ++ [TkCall.styleInit o.themename]

/-- The full trace of `Window.__init__`.  `winsys` is the value Tk
returns for `tk windowingsystem`; `iconFails` tells whether the icon
assignment raises `tkinter.TclError`. -/
def Window.initTrace (o : WindowOpts) (winsys : String) (iconFails : Bool) : List TkCall :=
  Window.preIconCalls o ++ windowIconBlock o.iconphoto iconFails ++ Window.postIconCalls o winsys

/-- The full trace of `Toplevel.__init__`. -/
def Toplevel.initTrace (o : ToplevelOpts) (winsys : String) : List TkCall :=
  [TkCall.superInit, TkCall.queryWinsys]
    ++ toplevelIconBlock o.iconphoto
    ++ (Toplevel.configSteps o winsys).flatMap stepCalls

/-- `Window.place_window_center`: after `update_idletasks`, the queried
window and screen dimensions give `xpos = (s_width - w_width) // 2`,
`ypos = (s_height - w_height) // 2` (Python floor division) and a
single `geometry(f'+{xpos}+{ypos}')` call. -/
def Window.place_window_center (wHeight wWidth sHeight sWidth : Int) : List TkCall :=
  let xpos := (sWidth - wWidth).fdiv 2
  let ypos := (sHeight - wHeight).fdiv 2
  [TkCall.updateIdletasks, TkCall.geometry s!"+{xpos}+{ypos}"]

/-- `position_center = place_window_center  # alias` on `Window`. -/
def Window.position_center := Window.place_window_center

/-- `Toplevel.place_window_center`, textually identical to the
`Window` method. -/
def Toplevel.place_window_center (wHeight wWidth sHeight sWidth : Int) : List TkCall :=
  let xpos := (sWidth - wWidth).fdiv 2
  let ypos := (sHeight - wHeight).fdiv 2
  [TkCall.updateIdletasks, TkCall.geometry s!"+{xpos}+{ypos}"]

/-- `position_center = place_window_center  # alias` on `Toplevel`. -/
def Toplevel.position_center := Toplevel.place_window_center

/-- Modelled from the spec: `window.py` star-imports
`ttkbootstrap.constants`, which is not under `src/`; `DISABLED` is the
standard Tk widget state string. -/
def DISABLED : String := "disabled"

/-- Modelled from the spec: `ttkbootstrap.constants` is not under
`src/`; `READONLY` is the standard Tk widget state string. -/
def READONLY : String := "readonly"

/-- The environment of one `_disabled_state_cursor` invocation: the
flags tell which of the fallible operations (`nametowidget`,
`cget('state')`, `cget('cursor')`, the cursor assignment) raises, and
`state` / `cursor` are the values the `cget` calls would return. -/
structure CursorEvent where
  lookupFails : Bool
  stateFails : Bool
  cursorFails : Bool
  assignFails : Bool
  state : String
  cursor : String
  deriving DecidableEq

/-- The body of `Window._disabled_state_cursor` without the
surrounding `try`/`except`: `Except.error ()` is a raised exception,
`Except.ok r` a normal return where `r` is the cursor assignment made
(`none`: no assignment; `some v`: `widget['cursor'] = v`, with
`v = none` embedding the Python `None` assignment). -/
def disabledStateCursorBody (e : CursorEvent) : Except Unit (Option (Option String)) :=
  if e.lookupFails ∨ e.stateFails ∨ e.cursorFails then Except.error ()
  else if e.state = DISABLED ∨ e.state = READONLY then
    if e.cursor = "arrow" then Except.ok none
    else if e.assignFails then Except.error () else Except.ok (some (some "arrow"))
  else
    if e.cursor = "ibeam" ∨ e.cursor = "" then Except.ok none
    else if e.assignFails then Except.error () else Except.ok (some none)

/-- `Window._disabled_state_cursor`: the body wrapped in the bare
`try`/`except: pass`, so every raised exception yields a normal return
with no cursor assignment. -/
def Window.disabled_state_cursor (e : CursorEvent) : Option (Option String) :=
  match disabledStateCursorBody e with
  | Except.ok r => r
  | Except.error _ => none

/-! ### Membership characterizations of the guarded chunks -/

theorem mem_sizeSteps {s : Step} {x : Option (Int × Int)} :
    s ∈ sizeSteps x ↔ ∃ w h, x = some (w, h) ∧ s = Step.setSize w h := by
  rcases x with _ | ⟨w, h⟩ <;> simp [sizeSteps] <;> aesop

theorem mem_positionSteps {s : Step} {x : Option (Int × Int)} :
    s ∈ positionSteps x ↔ ∃ a b, x = some (a, b) ∧ s = Step.setPosition a b := by
  rcases x with _ | ⟨a, b⟩ <;> simp [positionSteps] <;> aesop

theorem mem_minsizeSteps {s : Step} {x : Option (Int × Int)} :
    s ∈ minsizeSteps x ↔ ∃ w h, x = some (w, h) ∧ s = Step.setMinsize w h := by
  rcases x with _ | ⟨w, h⟩ <;> simp [minsizeSteps] <;> aesop

theorem mem_maxsizeSteps {s : Step} {x : Option (Int × Int)} :
    s ∈ maxsizeSteps x ↔ ∃ w h, x = some (w, h) ∧ s = Step.setMaxsize w h := by
  rcases x with _ | ⟨w, h⟩ <;> simp [maxsizeSteps] <;> aesop

theorem mem_resizableSteps {s : Step} {x : Option (Bool × Bool)} :
    s ∈ resizableSteps x ↔ ∃ w h, x = some (w, h) ∧ s = Step.setResizable w h := by
  rcases x with _ | ⟨w, h⟩
  · simp [resizableSteps]
  · cases w <;> cases h <;> simp [resizableSteps] <;> aesop

theorem mem_transientSteps {s : Step} {x : Option String} :
    s ∈ transientSteps x ↔ ∃ m, x = some m ∧ s = Step.setTransient m := by
  rcases x with _ | m <;> simp [transientSteps]

theorem mem_overrideredirectSteps {s : Step} {b : Bool} :
    s ∈ overrideredirectSteps b ↔ b = true ∧ s = Step.setOverrideredirect := by
  cases b <;> simp [overrideredirectSteps]

theorem mem_windowtypeSteps {s : Step} {x : Option String} {winsys : String} :
    s ∈ windowtypeSteps x winsys ↔
      ∃ t, x = some t ∧ winsys = "x11" ∧ s = Step.setWindowtype t := by
  rcases x with _ | t
  · simp [windowtypeSteps]
  · by_cases hw : winsys = "x11" <;> simp [windowtypeSteps, hw]

theorem mem_topmostSteps {s : Step} {b : Bool} :
    s ∈ topmostSteps b ↔ b = true ∧ s = Step.setTopmost := by
  cases b <;> simp [topmostSteps]

theorem mem_toolwindowSteps {s : Step} {b : Bool} {winsys : String} :
    s ∈ toolwindowSteps b winsys ↔
      b = true ∧ winsys = "win32" ∧ s = Step.setToolwindow := by
  cases b
  · simp [toolwindowSteps]
  · by_cases hw : winsys = "win32" <;> simp [toolwindowSteps, hw]

theorem mem_alphaSteps {s : Step} {al : Option ℚ} {winsys : String} :
    s ∈ alphaSteps al winsys ↔
      ∃ a, al = some a ∧ s = Step.setAlpha (decide (winsys = "x11")) a := by
  rcases al with _ | a <;> simp [alphaSteps]

/-! ### Kind images of the guarded chunks -/

theorem sizeSteps_kinds (x : Option (Int × Int)) :
    (sizeSteps x).map stepKind = if x.isSome then [1] else [] := by
  rcases x with _ | ⟨w, h⟩ <;> rfl

theorem positionSteps_kinds (x : Option (Int × Int)) :
    (positionSteps x).map stepKind = if x.isSome then [2] else [] := by
  rcases x with _ | ⟨a, b⟩ <;> rfl

theorem minsizeSteps_kinds (x : Option (Int × Int)) :
    (minsizeSteps x).map stepKind = if x.isSome then [3] else [] := by
  rcases x with _ | ⟨w, h⟩ <;> rfl

theorem maxsizeSteps_kinds (x : Option (Int × Int)) :
    (maxsizeSteps x).map stepKind = if x.isSome then [4] else [] := by
  rcases x with _ | ⟨w, h⟩ <;> rfl

theorem resizableSteps_kinds (x : Option (Bool × Bool)) :
    (resizableSteps x).map stepKind = if x.isSome then [5] else [] := by
  rcases x with _ | ⟨w, h⟩ <;> rfl

theorem transientSteps_kinds (x : Option String) :
    (transientSteps x).map stepKind = if x.isSome then [6] else [] := by
  rcases x with _ | m <;> rfl

theorem overrideredirectSteps_kinds (b : Bool) :
    (overrideredirectSteps b).map stepKind = if b then [7] else [] := by
  cases b <;> rfl

theorem windowtypeSteps_kinds (x : Option String) (winsys : String) :
    (windowtypeSteps x winsys).map stepKind =
      if x.isSome ∧ winsys = "x11" then [8] else [] := by
  rcases x with _ | t
  · simp [windowtypeSteps]
  · by_cases hw : winsys = "x11" <;> simp [windowtypeSteps, hw, stepKind]

theorem topmostSteps_kinds (b : Bool) :
    (topmostSteps b).map stepKind = if b then [9] else [] := by
  cases b <;> rfl

theorem toolwindowSteps_kinds (b : Bool) (winsys : String) :
    (toolwindowSteps b winsys).map stepKind =
      if b ∧ winsys = "win32" then [10] else [] := by
  cases b
  · simp [toolwindowSteps]
  · by_cases hw : winsys = "win32" <;> simp [toolwindowSteps, hw, stepKind]

theorem alphaSteps_kinds (al : Option ℚ) (winsys : String) :
    (alphaSteps al winsys).map stepKind = if al.isSome then [11] else [] := by
  rcases al with _ | a <;> rfl

/-- Claim C1: for both `Window` and `Toplevel`, `place_window_center`
computes `xpos = (s_width - w_width) // 2` and
`ypos = (s_height - w_height) // 2` (Python floor division) from the
queried screen and window pixel dimensions and issues exactly one
geometry update, the string `+xpos+ypos`; every other call of the
method is `update_idletasks`, and the corresponding position step
changes nothing of the window configuration but the position. -/
theorem place_window_center_spec (wh ww sh sw : Int) :
    Window.place_window_center wh ww sh sw =
      [TkCall.updateIdletasks,
       TkCall.geometry s!"+{(sw - ww).fdiv 2}+{(sh - wh).fdiv 2}"]
    ∧ Toplevel.place_window_center wh ww sh sw = Window.place_window_center wh ww sh sw
    ∧ (Window.place_window_center wh ww sh sw).countP isGeometryCall = 1
    ∧ (∀ c ∈ Window.place_window_center wh ww sh sw,
        isGeometryCall c = false → c = TkCall.updateIdletasks)
    ∧ (∀ st : WinConfig,
        applySteps st [Step.setPosition ((sw - ww).fdiv 2) ((sh - wh).fdiv 2)] =
          { st with pos := some ((sw - ww).fdiv 2, (sh - wh).fdiv 2) })
    ∧ stepCalls (Step.setPosition ((sw - ww).fdiv 2) ((sh - wh).fdiv 2)) =
        [TkCall.geometry s!"+{(sw - ww).fdiv 2}+{(sh - wh).fdiv 2}"] := by
  refine ⟨rfl, rfl, rfl, ?_, fun st => rfl, rfl⟩
  intro c hc hf
  rcases List.mem_cons.1 hc with rfl | hc
  · rfl
  · rcases List.mem_cons.1 hc with rfl | hc
    · simp [isGeometryCall] at hf
    · simp at hc

/-- Closed instance of `place_window_center_spec` on a 1000 x 1000
window and a 1920 x 1668 screen. -/
theorem place_window_center_spec_witness :
    Window.place_window_center 1000 1000 1668 1920 =
      [TkCall.updateIdletasks, TkCall.geometry "+460+334"]
    ∧ (Window.place_window_center 1000 1000 1668 1920).countP isGeometryCall = 1 := by
  have h := place_window_center_spec 1000 1000 1668 1920
  refine ⟨?_, h.2.2.1⟩
  rw [h.1]
  rfl

/-- Claim C2: on both classes, `position_center` is definitionally the
same method as `place_window_center`: on every queried dimensions it
issues the identical trace. -/
theorem position_center_alias (wh ww sh sw : Int) :
    Window.position_center wh ww sh sw = Window.place_window_center wh ww sh sw
    ∧ Toplevel.position_center wh ww sh sw = Toplevel.place_window_center wh ww sh sw :=
  ⟨rfl, rfl⟩

/-! ### Order-insensitivity of the configuration steps -/

theorem runStep_comm (a b : Step) (h : stepKind a ≠ stepKind b) (w : WinConfig) :
    runStep b (runStep a w) = runStep a (runStep b w) := by
  cases a <;> cases b <;> first | exact absurd rfl h | rfl

theorem window_kinds_sublist (o : WindowOpts) (ws : String) :
    List.Sublist ((Window.configSteps o ws).map stepKind) [0, 1, 2, 3, 4, 5, 6, 7, 11] := by
  have h0 : List.Sublist ([Step.setTitle o.title].map stepKind) [0] := by simp [stepKind]
  have h1 : List.Sublist ((sizeSteps o.size).map stepKind) [1] := by
    rw [sizeSteps_kinds]; split <;> simp
  have h2 : List.Sublist ((positionSteps o.position).map stepKind) [2] := by
    rw [positionSteps_kinds]; split <;> simp
  have h3 : List.Sublist ((minsizeSteps o.minsize).map stepKind) [3] := by
    rw [minsizeSteps_kinds]; split <;> simp
  have h4 : List.Sublist ((maxsizeSteps o.maxsize).map stepKind) [4] := by
    rw [maxsizeSteps_kinds]; split <;> simp
  have h5 : List.Sublist ((resizableSteps o.resizable).map stepKind) [5] := by
    rw [resizableSteps_kinds]; split <;> simp
  have h6 : List.Sublist ((transientSteps o.transient).map stepKind) [6] := by
    rw [transientSteps_kinds]; split <;> simp
  have h7 : List.Sublist ((overrideredirectSteps o.overrideredirect).map stepKind) [7] := by
    rw [overrideredirectSteps_kinds]; split <;> simp
  have h8 : List.Sublist ((alphaSteps o.alpha ws).map stepKind) [11] := by
    rw [alphaSteps_kinds]; split <;> simp
  have hall :=
    ((((((((h0.append h1).append h2).append h3).append h4).append h5).append
      h6).append h7).append h8)
  simp only [Window.configSteps, List.map_append]
  exact hall

theorem toplevel_kinds_sublist (o : ToplevelOpts) (ws : String) :
    List.Sublist ((Toplevel.configSteps o ws).map stepKind)
      [0, 1, 2, 3, 4, 5, 6, 7, 8, 9, 10, 11] := by
  have h0 : List.Sublist ([Step.setTitle o.title].map stepKind) [0] := by simp [stepKind]
  have h1 : List.Sublist ((sizeSteps o.size).map stepKind) [1] := by
    rw [sizeSteps_kinds]; split <;> simp
  have h2 : List.Sublist ((positionSteps o.position).map stepKind) [2] := by
    rw [positionSteps_kinds]; split <;> simp
  have h3 : List.Sublist ((minsizeSteps o.minsize).map stepKind) [3] := by
    rw [minsizeSteps_kinds]; split <;> simp
  have h4 : List.Sublist ((maxsizeSteps o.maxsize).map stepKind) [4] := by
    rw [maxsizeSteps_kinds]; split <;> simp
  have h5 : List.Sublist ((resizableSteps o.resizable).map stepKind) [5] := by
    rw [resizableSteps_kinds]; split <;> simp
  have h6 : List.Sublist ((transientSteps o.transient).map stepKind) [6] := by
    rw [transientSteps_kinds]; split <;> simp
  have h7 : List.Sublist ((overrideredirectSteps o.overrideredirect).map stepKind) [7] := by
    rw [overrideredirectSteps_kinds]; split <;> simp
  have h8 : List.Sublist ((windowtypeSteps o.windowtype ws).map stepKind) [8] := by
    rw [windowtypeSteps_kinds]; split <;> simp
  have h9 : List.Sublist ((topmostSteps o.topmost).map stepKind) [9] := by
    rw [topmostSteps_kinds]; split <;> simp
  have h10 : List.Sublist ((toolwindowSteps o.toolwindow ws).map stepKind) [10] := by
    rw [toolwindowSteps_kinds]; split <;> simp
  have h11 : List.Sublist ((alphaSteps o.alpha ws).map stepKind) [11] := by
    rw [alphaSteps_kinds]; split <;> simp
  have hall :=
    (((((((((((h0.append h1).append h2).append h3).append h4).append h5).append
      h6).append h7).append h8).append h9).append h10).append h11)
  simp only [Toplevel.configSteps, List.map_append]
  exact hall

theorem window_steps_pairwise (o : WindowOpts) (ws : String) :
    (Window.configSteps o ws).Pairwise (fun a b => stepKind a ≠ stepKind b) := by
  have h : ((Window.configSteps o ws).map stepKind).Pairwise (· ≠ ·) :=
    (window_kinds_sublist o ws).nodup (by decide)
  exact List.pairwise_map.mp h

theorem toplevel_steps_pairwise (o : ToplevelOpts) (ws : String) :
    (Toplevel.configSteps o ws).Pairwise (fun a b => stepKind a ≠ stepKind b) := by
  have h : ((Toplevel.configSteps o ws).map stepKind).Pairwise (· ≠ ·) :=
    (toplevel_kinds_sublist o ws).nodup (by decide)
  exact List.pairwise_map.mp h

theorem steps_comm_of_pairwise {l : List Step}
    (hp : l.Pairwise (fun a b => stepKind a ≠ stepKind b)) :
    ∀ x ∈ l, ∀ y ∈ l, ∀ z : WinConfig, runStep y (runStep x z) = runStep x (runStep y z) := by
  intro x hx y hy z
  by_cases hxy : x = y
  · subst hxy; rfl
  · exact runStep_comm x y (hp.forall (fun a b h => Ne.symm h) hx hy hxy) z

/-- Claim C3: the guarded configuration steps of `Window.__init__` and
of `Toplevel.__init__` each write a distinct aspect of the window
configuration, so running them in any permutation of the code's order
yields the same final configuration as the code's order. -/
theorem config_order_insensitive (wo : WindowOpts) (tlo : ToplevelOpts) (ws : String)
    (init : WinConfig) (l1 l2 : List Step)
    (h1 : l1.Perm (Window.configSteps wo ws))
    (h2 : l2.Perm (Toplevel.configSteps tlo ws)) :
    applySteps init l1 = applySteps init (Window.configSteps wo ws)
    ∧ applySteps init l2 = applySteps init (Toplevel.configSteps tlo ws) := by
  constructor
  · refine h1.foldl_eq' ?_ init
    intro x hx y hy z
    have hp : l1.Pairwise (fun a b => stepKind a ≠ stepKind b) :=
      (h1.pairwise_iff (fun h => Ne.symm h)).mpr (window_steps_pairwise wo ws)
    exact steps_comm_of_pairwise hp x hx y hy z
  · refine h2.foldl_eq' ?_ init
    intro x hx y hy z
    have hp : l2.Pairwise (fun a b => stepKind a ≠ stepKind b) :=
      (h2.pairwise_iff (fun h => Ne.symm h)).mpr (toplevel_steps_pairwise tlo ws)
    exact steps_comm_of_pairwise hp x hx y hy z

/-- Closed instance of `config_order_insensitive`: swapping the title
and size steps of a concrete `Window` construction leaves the final
configuration unchanged. -/
theorem config_order_insensitive_witness :
    applySteps initialWinConfig [Step.setSize 5 6, Step.setTitle "t"] =
      applySteps initialWinConfig
        (Window.configSteps { title := "t", size := some (5, 6), alpha := none } "win32") := by
  have h := config_order_insensitive
    { title := "t", size := some (5, 6), alpha := none } {} "win32" initialWinConfig
    [Step.setSize 5 6, Step.setTitle "t"] (Toplevel.configSteps {} "win32")
    (by decide) (List.Perm.refl _)
  exact h.1

/-! ### Frame lemmas: steps of another kind leave a field untouched -/

theorem applySteps_preserve {α : Type} (f : WinConfig → α) (l : List Step)
    (h : ∀ s ∈ l, ∀ w : WinConfig, f (runStep s w) = f w) (init : WinConfig) :
    f (applySteps init l) = f init := by
  induction l generalizing init with
  | nil => rfl
  | cons s t ih =>
      have h1 : f (applySteps (runStep s init) t) = f (runStep s init) :=
        ih (fun a ha w => h a (List.mem_cons_of_mem s ha) w) (runStep s init)
      calc f (applySteps init (s :: t)) = f (applySteps (runStep s init) t) := rfl
        _ = f (runStep s init) := h1
        _ = f init := h s (List.mem_cons_self s t) init

theorem runStep_keeps_size {s : Step} (h : stepKind s ≠ 1) (w : WinConfig) :
    (runStep s w).size = w.size := by
  cases s <;> first | exact absurd rfl h | rfl

theorem runStep_keeps_pos {s : Step} (h : stepKind s ≠ 2) (w : WinConfig) :
    (runStep s w).pos = w.pos := by
  cases s <;> first | exact absurd rfl h | rfl

theorem runStep_keeps_minsz {s : Step} (h : stepKind s ≠ 3) (w : WinConfig) :
    (runStep s w).minsz = w.minsz := by
  cases s <;> first | exact absurd rfl h | rfl

theorem runStep_keeps_maxsz {s : Step} (h : stepKind s ≠ 4) (w : WinConfig) :
    (runStep s w).maxsz = w.maxsz := by
  cases s <;> first | exact absurd rfl h | rfl

theorem runStep_keeps_resiz {s : Step} (h : stepKind s ≠ 5) (w : WinConfig) :
    (runStep s w).resiz = w.resiz := by
  cases s <;> first | exact absurd rfl h | rfl

theorem runStep_keeps_transient {s : Step} (h : stepKind s ≠ 6) (w : WinConfig) :
    (runStep s w).transientMaster = w.transientMaster := by
  cases s <;> first | exact absurd rfl h | rfl

theorem runStep_keeps_override {s : Step} (h : stepKind s ≠ 7) (w : WinConfig) :
    (runStep s w).overrideRedirect = w.overrideRedirect := by
  cases s <;> first | exact absurd rfl h | rfl

theorem runStep_keeps_attrType {s : Step} (h : stepKind s ≠ 8) (w : WinConfig) :
    (runStep s w).attrType = w.attrType := by
  cases s <;> first | exact absurd rfl h | rfl

theorem runStep_keeps_topmost {s : Step} (h : stepKind s ≠ 9) (w : WinConfig) :
    (runStep s w).attrTopmost = w.attrTopmost := by
  cases s <;> first | exact absurd rfl h | rfl

theorem runStep_keeps_toolwindow {s : Step} (h : stepKind s ≠ 10) (w : WinConfig) :
    (runStep s w).attrToolwindow = w.attrToolwindow := by
  cases s <;> first | exact absurd rfl h | rfl

theorem runStep_keeps_alpha {s : Step} (h : stepKind s ≠ 11) (w : WinConfig) :
    (runStep s w).attrAlpha = w.attrAlpha := by
  cases s <;> first | exact absurd rfl h | rfl

theorem window_steps_guard (o : WindowOpts) (ws : String) :
    ∀ s ∈ Window.configSteps o ws,
      (o.size = none → stepKind s ≠ 1)
      ∧ (o.position = none → stepKind s ≠ 2)
      ∧ (o.minsize = none → stepKind s ≠ 3)
      ∧ (o.maxsize = none → stepKind s ≠ 4)
      ∧ (o.resizable = none → stepKind s ≠ 5)
      ∧ (o.transient = none → stepKind s ≠ 6)
      ∧ (o.overrideredirect = false → stepKind s ≠ 7)
      ∧ (o.alpha = none → stepKind s ≠ 11) := by
  intro s hs
  simp only [Window.configSteps, List.mem_append, List.mem_singleton, mem_sizeSteps,
    mem_positionSteps, mem_minsizeSteps, mem_maxsizeSteps, mem_resizableSteps,
    mem_transientSteps, mem_overrideredirectSteps, mem_alphaSteps] at hs
  rcases hs with
    ((((((((rfl | ⟨a, b, hopt, rfl⟩) | ⟨a, b, hopt, rfl⟩) | ⟨a, b, hopt, rfl⟩) |
      ⟨a, b, hopt, rfl⟩) | ⟨a, b, hopt, rfl⟩) | ⟨m, hopt, rfl⟩) | ⟨hb, rfl⟩) |
      ⟨a, hopt, rfl⟩) <;>
    simp_all [stepKind]

theorem toplevel_steps_guard (o : ToplevelOpts) (ws : String) :
    ∀ s ∈ Toplevel.configSteps o ws,
      (o.size = none → stepKind s ≠ 1)
      ∧ (o.position = none → stepKind s ≠ 2)
      ∧ (o.minsize = none → stepKind s ≠ 3)
      ∧ (o.maxsize = none → stepKind s ≠ 4)
      ∧ (o.resizable = none → stepKind s ≠ 5)
      ∧ (o.transient = none → stepKind s ≠ 6)
      ∧ (o.overrideredirect = false → stepKind s ≠ 7)
      ∧ (o.windowtype = none → stepKind s ≠ 8)
      ∧ (ws ≠ "x11" → stepKind s ≠ 8)
      ∧ (o.topmost = false → stepKind s ≠ 9)
      ∧ (o.toolwindow = false → stepKind s ≠ 10)
      ∧ (ws ≠ "win32" → stepKind s ≠ 10)
      ∧ (o.alpha = none → stepKind s ≠ 11) := by
  intro s hs
  simp only [Toplevel.configSteps, List.mem_append, List.mem_singleton, mem_sizeSteps,
    mem_positionSteps, mem_minsizeSteps, mem_maxsizeSteps, mem_resizableSteps,
    mem_transientSteps, mem_overrideredirectSteps, mem_windowtypeSteps, mem_topmostSteps,
    mem_toolwindowSteps, mem_alphaSteps] at hs
  rcases hs with
    (((((((((((rfl | ⟨a, b, hopt, rfl⟩) | ⟨a, b, hopt, rfl⟩) | ⟨a, b, hopt, rfl⟩) |
      ⟨a, b, hopt, rfl⟩) | ⟨a, b, hopt, rfl⟩) | ⟨m, hopt, rfl⟩) | ⟨hb, rfl⟩) |
      ⟨t, hopt, hws, rfl⟩) | ⟨hb, rfl⟩) | ⟨hb, hws, rfl⟩) | ⟨a, hopt, rfl⟩) <;>
    simp_all [stepKind]

/-- Claim C4 as stated is false: with `toolwindow=True` on a
windowing system other than `'win32'` (here `'x11'`), the argument is
truthy yet no `-toolwindow` attribute call is issued, because the code
additionally requires `winsys == 'win32'`. -/
theorem toolwindow_guard_counterexample :
    ({ toolwindow := true, alpha := none } : ToplevelOpts).toolwindow = true
    ∧ Step.setToolwindow ∉
        Toplevel.configSteps { toolwindow := true, alpha := none } "x11"
    ∧ TkCall.attributes "-toolwindow" (AttrV.int 1) ∉
        Toplevel.initTrace { toolwindow := true, alpha := none } "x11" := by
  refine ⟨rfl, ?_, ?_⟩ <;> decide

/-- Claim C4 (amended): in both constructors, each optional
configuration call is made iff its guard holds — size, position,
minsize, maxsize, resizable and transient iff the argument is not
`None`; `overrideredirect` and `topmost` iff the argument is truthy;
`toolwindow` iff the argument is truthy and the windowing system is
`'win32'` — and when a guard fails the corresponding aspect of the
window configuration is left untouched.  Every configuration step's
calls appear in the constructor trace. -/
theorem guarded_config_calls (o : WindowOpts) (o2 : ToplevelOpts) (ws : String)
    (ic : Bool) (init : WinConfig) :
    (∀ w h, Step.setSize w h ∈ Window.configSteps o ws ↔ o.size = some (w, h))
    ∧ (∀ x y, Step.setPosition x y ∈ Window.configSteps o ws ↔ o.position = some (x, y))
    ∧ (∀ w h, Step.setMinsize w h ∈ Window.configSteps o ws ↔ o.minsize = some (w, h))
    ∧ (∀ w h, Step.setMaxsize w h ∈ Window.configSteps o ws ↔ o.maxsize = some (w, h))
    ∧ (∀ w h, Step.setResizable w h ∈ Window.configSteps o ws ↔ o.resizable = some (w, h))
    ∧ (∀ m, Step.setTransient m ∈ Window.configSteps o ws ↔ o.transient = some m)
    ∧ (Step.setOverrideredirect ∈ Window.configSteps o ws ↔ o.overrideredirect = true)
    ∧ (o.size = none → (applySteps init (Window.configSteps o ws)).size = init.size)
    ∧ (o.position = none → (applySteps init (Window.configSteps o ws)).pos = init.pos)
    ∧ (o.minsize = none → (applySteps init (Window.configSteps o ws)).minsz = init.minsz)
    ∧ (o.maxsize = none → (applySteps init (Window.configSteps o ws)).maxsz = init.maxsz)
    ∧ (o.resizable = none → (applySteps init (Window.configSteps o ws)).resiz = init.resiz)
    ∧ (o.transient = none →
        (applySteps init (Window.configSteps o ws)).transientMaster = init.transientMaster)
    ∧ (o.overrideredirect = false →
        (applySteps init (Window.configSteps o ws)).overrideRedirect = init.overrideRedirect)
    ∧ (∀ w h, Step.setSize w h ∈ Toplevel.configSteps o2 ws ↔ o2.size = some (w, h))
    ∧ (∀ x y, Step.setPosition x y ∈ Toplevel.configSteps o2 ws ↔ o2.position = some (x, y))
    ∧ (∀ w h, Step.setMinsize w h ∈ Toplevel.configSteps o2 ws ↔ o2.minsize = some (w, h))
    ∧ (∀ w h, Step.setMaxsize w h ∈ Toplevel.configSteps o2 ws ↔ o2.maxsize = some (w, h))
    ∧ (∀ w h, Step.setResizable w h ∈ Toplevel.configSteps o2 ws ↔ o2.resizable = some (w, h))
    ∧ (∀ m, Step.setTransient m ∈ Toplevel.configSteps o2 ws ↔ o2.transient = some m)
    ∧ (Step.setOverrideredirect ∈ Toplevel.configSteps o2 ws ↔ o2.overrideredirect = true)
    ∧ (Step.setTopmost ∈ Toplevel.configSteps o2 ws ↔ o2.topmost = true)
    ∧ (Step.setToolwindow ∈ Toplevel.configSteps o2 ws ↔
        (o2.toolwindow = true ∧ ws = "win32"))
    ∧ (o2.size = none → (applySteps init (Toplevel.configSteps o2 ws)).size = init.size)
    ∧ (o2.position = none → (applySteps init (Toplevel.configSteps o2 ws)).pos = init.pos)
    ∧ (o2.minsize = none → (applySteps init (Toplevel.configSteps o2 ws)).minsz = init.minsz)
    ∧ (o2.maxsize = none → (applySteps init (Toplevel.configSteps o2 ws)).maxsz = init.maxsz)
    ∧ (o2.resizable = none → (applySteps init (Toplevel.configSteps o2 ws)).resiz = init.resiz)
    ∧ (o2.transient = none →
        (applySteps init (Toplevel.configSteps o2 ws)).transientMaster = init.transientMaster)
    ∧ (o2.overrideredirect = false →
        (applySteps init (Toplevel.configSteps o2 ws)).overrideRedirect = init.overrideRedirect)
    ∧ (o2.topmost = false →
        (applySteps init (Toplevel.configSteps o2 ws)).attrTopmost = init.attrTopmost)
    ∧ (o2.toolwindow = false →
        (applySteps init (Toplevel.configSteps o2 ws)).attrToolwindow = init.attrToolwindow)
    ∧ (∀ st ∈ Window.configSteps o ws, ∀ c ∈ stepCalls st, c ∈ Window.initTrace o ws ic)
    ∧ (∀ st ∈ Toplevel.configSteps o2 ws, ∀ c ∈ stepCalls st, c ∈ Toplevel.initTrace o2 ws) := by
  refine ⟨?_, ?_, ?_, ?_, ?_, ?_, ?_, ?_, ?_, ?_, ?_, ?_, ?_, ?_, ?_, ?_, ?_, ?_,
    ?_, ?_, ?_, ?_, ?_, ?_, ?_, ?_, ?_, ?_, ?_, ?_, ?_, ?_, ?_, ?_⟩
  · intro w h
    simp [Window.configSteps, List.mem_append, mem_sizeSteps, mem_positionSteps,
      mem_minsizeSteps, mem_maxsizeSteps, mem_resizableSteps, mem_transientSteps,
      mem_overrideredirectSteps, mem_alphaSteps] <;> aesop
  · intro x y
    simp [Window.configSteps, List.mem_append, mem_sizeSteps, mem_positionSteps,
      mem_minsizeSteps, mem_maxsizeSteps, mem_resizableSteps, mem_transientSteps,
      mem_overrideredirectSteps, mem_alphaSteps] <;> aesop
  · intro w h
    simp [Window.configSteps, List.mem_append, mem_sizeSteps, mem_positionSteps,
      mem_minsizeSteps, mem_maxsizeSteps, mem_resizableSteps, mem_transientSteps,
      mem_overrideredirectSteps, mem_alphaSteps] <;> aesop
  · intro w h
    simp [Window.configSteps, List.mem_append, mem_sizeSteps, mem_positionSteps,
      mem_minsizeSteps, mem_maxsizeSteps, mem_resizableSteps, mem_transientSteps,
      mem_overrideredirectSteps, mem_alphaSteps] <;> aesop
  · intro w h
    simp [Window.configSteps, List.mem_append, mem_sizeSteps, mem_positionSteps,
      mem_minsizeSteps, mem_maxsizeSteps, mem_resizableSteps, mem_transientSteps,
      mem_overrideredirectSteps, mem_alphaSteps] <;> aesop
  · intro m
    simp [Window.configSteps, List.mem_append, mem_sizeSteps, mem_positionSteps,
      mem_minsizeSteps, mem_maxsizeSteps, mem_resizableSteps, mem_transientSteps,
      mem_overrideredirectSteps, mem_alphaSteps] <;> aesop
  · simp [Window.configSteps, List.mem_append, mem_sizeSteps, mem_positionSteps,
      mem_minsizeSteps, mem_maxsizeSteps, mem_resizableSteps, mem_transientSteps,
      mem_overrideredirectSteps, mem_alphaSteps] <;> aesop
  · intro h
    exact applySteps_preserve WinConfig.size _
      (fun s hs w => runStep_keeps_size ((window_steps_guard o ws s hs).1 h) w) init
  · intro h
    exact applySteps_preserve WinConfig.pos _
      (fun s hs w => runStep_keeps_pos ((window_steps_guard o ws s hs).2.1 h) w) init
  · intro h
    exact applySteps_preserve WinConfig.minsz _
      (fun s hs w => runStep_keeps_minsz ((window_steps_guard o ws s hs).2.2.1 h) w) init
  · intro h
    exact applySteps_preserve WinConfig.maxsz _
      (fun s hs w => runStep_keeps_maxsz ((window_steps_guard o ws s hs).2.2.2.1 h) w) init
  · intro h
    exact applySteps_preserve WinConfig.resiz _
      (fun s hs w => runStep_keeps_resiz ((window_steps_guard o ws s hs).2.2.2.2.1 h) w) init
  · intro h
    exact applySteps_preserve WinConfig.transientMaster _
      (fun s hs w =>
        runStep_keeps_transient ((window_steps_guard o ws s hs).2.2.2.2.2.1 h) w) init
  · intro h
    exact applySteps_preserve WinConfig.overrideRedirect _
      (fun s hs w =>
        runStep_keeps_override ((window_steps_guard o ws s hs).2.2.2.2.2.2.1 h) w) init
  · intro w h
    simp [Toplevel.configSteps, List.mem_append, mem_sizeSteps, mem_positionSteps,
      mem_minsizeSteps, mem_maxsizeSteps, mem_resizableSteps, mem_transientSteps,
      mem_overrideredirectSteps, mem_windowtypeSteps, mem_topmostSteps,
      mem_toolwindowSteps, mem_alphaSteps] <;> aesop
  · intro x y
    simp [Toplevel.configSteps, List.mem_append, mem_sizeSteps, mem_positionSteps,
      mem_minsizeSteps, mem_maxsizeSteps, mem_resizableSteps, mem_transientSteps,
      mem_overrideredirectSteps, mem_windowtypeSteps, mem_topmostSteps,
      mem_toolwindowSteps, mem_alphaSteps] <;> aesop
  · intro w h
    simp [Toplevel.configSteps, List.mem_append, mem_sizeSteps, mem_positionSteps,
      mem_minsizeSteps, mem_maxsizeSteps, mem_resizableSteps, mem_transientSteps,
      mem_overrideredirectSteps, mem_windowtypeSteps, mem_topmostSteps,
      mem_toolwindowSteps, mem_alphaSteps] <;> aesop
  · intro w h
    simp [Toplevel.configSteps, List.mem_append, mem_sizeSteps, mem_positionSteps,
      mem_minsizeSteps, mem_maxsizeSteps, mem_resizableSteps, mem_transientSteps,
      mem_overrideredirectSteps, mem_windowtypeSteps, mem_topmostSteps,
      mem_toolwindowSteps, mem_alphaSteps] <;> aesop
  · intro w h
    simp [Toplevel.configSteps, List.mem_append, mem_sizeSteps, mem_positionSteps,
      mem_minsizeSteps, mem_maxsizeSteps, mem_resizableSteps, mem_transientSteps,
      mem_overrideredirectSteps, mem_windowtypeSteps, mem_topmostSteps,
      mem_toolwindowSteps, mem_alphaSteps] <;> aesop
  · intro m
    simp [Toplevel.configSteps, List.mem_append, mem_sizeSteps, mem_positionSteps,
      mem_minsizeSteps, mem_maxsizeSteps, mem_resizableSteps, mem_transientSteps,
      mem_overrideredirectSteps, mem_windowtypeSteps, mem_topmostSteps,
      mem_toolwindowSteps, mem_alphaSteps] <;> aesop
  · simp [Toplevel.configSteps, List.mem_append, mem_sizeSteps, mem_positionSteps,
      mem_minsizeSteps, mem_maxsizeSteps, mem_resizableSteps, mem_transientSteps,
      mem_overrideredirectSteps, mem_windowtypeSteps, mem_topmostSteps,
      mem_toolwindowSteps, mem_alphaSteps] <;> aesop
  · simp [Toplevel.configSteps, List.mem_append, mem_sizeSteps, mem_positionSteps,
      mem_minsizeSteps, mem_maxsizeSteps, mem_resizableSteps, mem_transientSteps,
      mem_overrideredirectSteps, mem_windowtypeSteps, mem_topmostSteps,
      mem_toolwindowSteps, mem_alphaSteps] <;> aesop
  · simp [Toplevel.configSteps, List.mem_append, mem_sizeSteps, mem_positionSteps,
      mem_minsizeSteps, mem_maxsizeSteps, mem_resizableSteps, mem_transientSteps,
      mem_overrideredirectSteps, mem_windowtypeSteps, mem_topmostSteps,
      mem_toolwindowSteps, mem_alphaSteps] <;> aesop
  · intro h
    exact applySteps_preserve WinConfig.size _
      (fun s hs w => runStep_keeps_size ((toplevel_steps_guard o2 ws s hs).1 h) w) init
  · intro h
    exact applySteps_preserve WinConfig.pos _
      (fun s hs w => runStep_keeps_pos ((toplevel_steps_guard o2 ws s hs).2.1 h) w) init
  · intro h
    exact applySteps_preserve WinConfig.minsz _
      (fun s hs w => runStep_keeps_minsz ((toplevel_steps_guard o2 ws s hs).2.2.1 h) w) init
  · intro h
    exact applySteps_preserve WinConfig.maxsz _
      (fun s hs w =>
        runStep_keeps_maxsz ((toplevel_steps_guard o2 ws s hs).2.2.2.1 h) w) init
  · intro h
    exact applySteps_preserve WinConfig.resiz _
      (fun s hs w =>
        runStep_keeps_resiz ((toplevel_steps_guard o2 ws s hs).2.2.2.2.1 h) w) init
  · intro h
    exact applySteps_preserve WinConfig.transientMaster _
      (fun s hs w =>
        runStep_keeps_transient ((toplevel_steps_guard o2 ws s hs).2.2.2.2.2.1 h) w) init
  · intro h
    exact applySteps_preserve WinConfig.overrideRedirect _
      (fun s hs w =>
        runStep_keeps_override ((toplevel_steps_guard o2 ws s hs).2.2.2.2.2.2.1 h) w) init
  · intro h
    exact applySteps_preserve WinConfig.attrTopmost _
      (fun s hs w =>
        runStep_keeps_topmost ((toplevel_steps_guard o2 ws s hs).2.2.2.2.2.2.2.2.2.1 h) w) init
  · intro h
    exact applySteps_preserve WinConfig.attrToolwindow _
      (fun s hs w =>
        runStep_keeps_toolwindow
          ((toplevel_steps_guard o2 ws s hs).2.2.2.2.2.2.2.2.2.2.1 h) w) init
  · intro st hst c hc
    have h1 : c ∈ (Window.configSteps o ws).flatMap stepCalls :=
      List.mem_flatMap.mpr ⟨st, hst, hc⟩
    have h2 : c ∈ Window.postIconCalls o ws := by
      simp only [Window.postIconCalls, List.mem_append]
      exact Or.inl (Or.inl h1)
    exact List.mem_append.mpr (Or.inr h2)
  · intro st hst c hc
    have h1 : c ∈ (Toplevel.configSteps o2 ws).flatMap stepCalls :=
      List.mem_flatMap.mpr ⟨st, hst, hc⟩
    exact List.mem_append.mpr (Or.inr h1)

/-- Closed instance of `guarded_config_calls`: a concrete `Window`
construction with only `minsize` supplied issues the minsize step and
leaves the size aspect untouched. -/
theorem guarded_config_calls_witness :
    Step.setMinsize 3 4 ∈
      Window.configSteps { minsize := some (3, 4), alpha := none } "aqua"
    ∧ (applySteps initialWinConfig
        (Window.configSteps { minsize := some (3, 4), alpha := none } "aqua")).size = none := by
  have h := guarded_config_calls { minsize := some (3, 4), alpha := none } {} "aqua"
    false initialWinConfig
  exact ⟨(h.2.2.1 3 4).mpr rfl, h.2.2.2.2.2.2.2.1 rfl⟩

/-! ### Trace-level helpers -/

theorem window_stepCalls_in_trace (o : WindowOpts) (ws : String) (ic : Bool) :
    ∀ st ∈ Window.configSteps o ws, ∀ c ∈ stepCalls st, c ∈ Window.initTrace o ws ic := by
  intro st hst c hc
  have h1 : c ∈ (Window.configSteps o ws).flatMap stepCalls :=
    List.mem_flatMap.mpr ⟨st, hst, hc⟩
  have h2 : c ∈ Window.postIconCalls o ws := by
    simp only [Window.postIconCalls, List.mem_append]
    exact Or.inl (Or.inl h1)
  exact List.mem_append.mpr (Or.inr h2)

theorem toplevel_stepCalls_in_trace (o : ToplevelOpts) (ws : String) :
    ∀ st ∈ Toplevel.configSteps o ws, ∀ c ∈ stepCalls st, c ∈ Toplevel.initTrace o ws := by
  intro st hst c hc
  have h1 : c ∈ (Toplevel.configSteps o ws).flatMap stepCalls :=
    List.mem_flatMap.mpr ⟨st, hst, hc⟩
  exact List.mem_append.mpr (Or.inr h1)

theorem iconphoto_not_stepCalls (b : Bool) (v : IconV) (st : Step) :
    TkCall.iconphoto b v ∉ stepCalls st := by
  cases st with
  | setTitle t => simp [stepCalls]
  | setSize w h => simp [stepCalls]
  | setPosition x y => simp [stepCalls]
  | setMinsize w h => simp [stepCalls]
  | setMaxsize w h => simp [stepCalls]
  | setResizable w h => simp [stepCalls]
  | setTransient m => simp [stepCalls]
  | setOverrideredirect => simp [stepCalls]
  | setWindowtype t => simp [stepCalls]
  | setTopmost => simp [stepCalls]
  | setToolwindow => simp [stepCalls]
  | setAlpha onX11 a => cases onX11 <;> simp [stepCalls]

theorem mem_windowIconBlock {c : TkCall} {ip : Option String} {ic : Bool} :
    c ∈ windowIconBlock ip ic ↔
      ic = false ∧ c = TkCall.iconphoto true (pyOr ip IconV.defaultIcon) := by
  cases ic <;> simp [windowIconBlock]

theorem mem_toplevelIconBlock {c : TkCall} {ip : Option String} :
    c ∈ toplevelIconBlock ip ↔
      ∃ i, ip = some i ∧ c = TkCall.iconphoto false (IconV.given i) := by
  rcases ip with _ | i <;> simp [toplevelIconBlock, pyOr]

/-- Claim C5: if the icon assignment of `Window.__init__` raises
`tkinter.TclError` (e.g. the icon was already applied by a previous
window creation), the exception is suppressed and construction
continues: the trace is the no-icon-call trace, and it still performs
the title call, every guarded configuration call, the entry-class
bindings, and the `Style(themename)` initialization. -/
theorem window_icon_failure_suppressed (o : WindowOpts) (ws : String) :
    Window.initTrace o ws true = Window.preIconCalls o ++ Window.postIconCalls o ws
    ∧ Window.initTrace o ws false =
        Window.preIconCalls o
          ++ [TkCall.iconphoto true (pyOr o.iconphoto IconV.defaultIcon)]
          ++ Window.postIconCalls o ws
    ∧ TkCall.setTitle o.title ∈ Window.initTrace o ws true
    ∧ (∀ st ∈ Window.configSteps o ws, ∀ c ∈ stepCalls st, c ∈ Window.initTrace o ws true)
    ∧ (∀ c ∈ Window.apply_entry_type_class_binding, c ∈ Window.initTrace o ws true)
    ∧ TkCall.styleInit o.themename ∈ Window.initTrace o ws true := by
  refine ⟨?_, ?_, ?_, window_stepCalls_in_trace o ws true, ?_, ?_⟩
  · simp [Window.initTrace, windowIconBlock]
  · simp [Window.initTrace, windowIconBlock]
  · have hst : Step.setTitle o.title ∈ Window.configSteps o ws := by
      simp [Window.configSteps, List.mem_append]
    exact window_stepCalls_in_trace o ws true _ hst _ (by simp [stepCalls])
  · intro c hc
    have h2 : c ∈ Window.postIconCalls o ws := by
      simp only [Window.postIconCalls, List.mem_append]
      exact Or.inl (Or.inr hc)
    exact List.mem_append.mpr (Or.inr h2)
  · have h2 : TkCall.styleInit o.themename ∈ Window.postIconCalls o ws := by
      simp only [Window.postIconCalls, List.mem_append]
      exact Or.inr (by simp)
    exact List.mem_append.mpr (Or.inr h2)

/-- Closed instance of `window_icon_failure_suppressed` on the default
options: with the icon assignment failing, the style initialization is
still reached. -/
theorem window_icon_failure_suppressed_witness :
    TkCall.styleInit "litera" ∈ Window.initTrace {} "aqua" true :=
  (window_icon_failure_suppressed {} "aqua").2.2.2.2.2

/-- Claim C6: `Window._disabled_state_cursor` never propagates an
error: whenever its body raises (widget lookup, state or cursor
introspection, or the cursor assignment), the bare `except` swallows
the exception — the callback returns normally and makes no cursor
assignment. -/
theorem disabled_state_cursor_swallows (e : CursorEvent)
    (h : disabledStateCursorBody e = Except.error ()) :
    Window.disabled_state_cursor e = none := by
  simp [Window.disabled_state_cursor, h]

/-- Closed instance of `disabled_state_cursor_swallows`: a failing
widget lookup yields a normal return with no assignment. -/
theorem disabled_state_cursor_swallows_witness :
    Window.disabled_state_cursor
      { lookupFails := true, stateFails := false, cursorFails := false,
        assignFails := false, state := "normal", cursor := "xterm" } = none :=
  disabled_state_cursor_swallows _ rfl

/-- Claim C7 (spec-modelled `DISABLED`/`READONLY`): `Window` registers
a class-wide `<Configure>` binding of `_disabled_state_cursor` for the
`TEntry`, `TSpinbox` and `TCombobox` widget classes (issued by every
`Window` construction), and for every event on such a widget: if the
state is disabled or readonly the cursor becomes `'arrow'` (no
assignment if it already is `'arrow'`); otherwise an `'ibeam'` or
empty cursor is left unchanged and any other cursor is reset by
assigning `None`. -/
theorem entry_cursor_fixup (e : CursorEvent)
    (hl : e.lookupFails = false) (hs : e.stateFails = false)
    (hc : e.cursorFails = false) (ha : e.assignFails = false) :
    Window.apply_entry_type_class_binding =
      [TkCall.bindClass "TEntry" "<Configure>" "_disabled_state_cursor" "+",
       TkCall.bindClass "TSpinbox" "<Configure>" "_disabled_state_cursor" "+",
       TkCall.bindClass "TCombobox" "<Configure>" "_disabled_state_cursor" "+"]
    ∧ (∀ o ws ic, ∀ c ∈ Window.apply_entry_type_class_binding,
        c ∈ Window.initTrace o ws ic)
    ∧ ((e.state = DISABLED ∨ e.state = READONLY) →
        (e.cursor = "arrow" → Window.disabled_state_cursor e = none)
        ∧ (e.cursor ≠ "arrow" →
            Window.disabled_state_cursor e = some (some "arrow")))
    ∧ (¬(e.state = DISABLED ∨ e.state = READONLY) →
        ((e.cursor = "ibeam" ∨ e.cursor = "") →
            Window.disabled_state_cursor e = none)
        ∧ (e.cursor ≠ "ibeam" → e.cursor ≠ "" →
            Window.disabled_state_cursor e = some none)) := by
  refine ⟨rfl, ?_, ?_, ?_⟩
  · intro o ws ic c hcm
    have h2 : c ∈ Window.postIconCalls o ws := by
      simp only [Window.postIconCalls, List.mem_append]
      exact Or.inl (Or.inr hcm)
    exact List.mem_append.mpr (Or.inr h2)
  · intro hst
    constructor
    · intro hcur
      simp [Window.disabled_state_cursor, disabledStateCursorBody, hl, hs, hc, hst, hcur]
    · intro hcur
      simp [Window.disabled_state_cursor, disabledStateCursorBody, hl, hs, hc, ha, hst, hcur]
  · intro hst
    constructor
    · intro hcur
      simp [Window.disabled_state_cursor, disabledStateCursorBody, hl, hs, hc, hst, hcur]
    · intro h1 h2
      simp [Window.disabled_state_cursor, disabledStateCursorBody, hl, hs, hc, ha, hst, h1, h2]

/-- Closed instance of `entry_cursor_fixup`: a disabled widget with an
`'xterm'` cursor gets the `'arrow'` cursor assigned. -/
theorem entry_cursor_fixup_witness :
    Window.disabled_state_cursor
      { lookupFails := false, stateFails := false, cursorFails := false,
        assignFails := false, state := "disabled", cursor := "xterm" }
      = some (some "arrow") := by
  have h := entry_cursor_fixup
    { lookupFails := false, stateFails := false, cursorFails := false,
      assignFails := false, state := "disabled", cursor := "xterm" }
    rfl rfl rfl rfl
  exact (h.2.2.1 (Or.inl rfl)).2 (by decide)

theorem type_attr_mem_stepCalls {t : String} {st : Step} :
    TkCall.attributes "-type" (AttrV.str t) ∈ stepCalls st ↔ st = Step.setWindowtype t := by
  cases st with
  | setTitle a => simp [stepCalls]
  | setSize a b => simp [stepCalls]
  | setPosition a b => simp [stepCalls]
  | setMinsize a b => simp [stepCalls]
  | setMaxsize a b => simp [stepCalls]
  | setResizable a b => simp [stepCalls]
  | setTransient a => simp [stepCalls]
  | setOverrideredirect => simp [stepCalls]
  | setWindowtype a => simp [stepCalls, eq_comm]
  | setTopmost => simp [stepCalls]
  | setToolwindow => simp [stepCalls]
  | setAlpha onX11 a => cases onX11 <;> simp [stepCalls]

theorem toolwindow_attr_mem_stepCalls {st : Step} :
    TkCall.attributes "-toolwindow" (AttrV.int 1) ∈ stepCalls st ↔
      st = Step.setToolwindow := by
  cases st with
  | setTitle a => simp [stepCalls]
  | setSize a b => simp [stepCalls]
  | setPosition a b => simp [stepCalls]
  | setMinsize a b => simp [stepCalls]
  | setMaxsize a b => simp [stepCalls]
  | setResizable a b => simp [stepCalls]
  | setTransient a => simp [stepCalls]
  | setOverrideredirect => simp [stepCalls]
  | setWindowtype a => simp [stepCalls]
  | setTopmost => simp [stepCalls]
  | setToolwindow => simp [stepCalls]
  | setAlpha onX11 a => cases onX11 <;> simp [stepCalls]

/-- Claim C8: platform-specific attribute handling branches on the
queried windowing system: `-type` is set iff `windowtype` is not
`None` and the windowing system is `'x11'`; `-toolwindow` is set iff
`toolwindow` is truthy and the windowing system is `'win32'`; and when
alpha is applied on `'x11'` (in either constructor) the window first
waits for visibility, immediately before the `-alpha` call. -/
theorem platform_attribute_branching (o : ToplevelOpts) (o2 : WindowOpts) (ws : String) :
    (∀ t, TkCall.attributes "-type" (AttrV.str t) ∈ Toplevel.initTrace o ws ↔
      (o.windowtype = some t ∧ ws = "x11"))
    ∧ (TkCall.attributes "-toolwindow" (AttrV.int 1) ∈ Toplevel.initTrace o ws ↔
      (o.toolwindow = true ∧ ws = "win32"))
    ∧ (∀ a, o.alpha = some a → ws = "x11" →
        [TkCall.waitVisibility, TkCall.attributes "-alpha" (AttrV.rat a)]
          <:+: Toplevel.initTrace o ws)
    ∧ (∀ a ic, o2.alpha = some a → ws = "x11" →
        [TkCall.waitVisibility, TkCall.attributes "-alpha" (AttrV.rat a)]
          <:+: Window.initTrace o2 ws ic) := by
  refine ⟨?_, ?_, ?_, ?_⟩
  · intro t
    simp [Toplevel.initTrace, Toplevel.configSteps, List.mem_append, List.mem_flatMap,
      mem_toplevelIconBlock, type_attr_mem_stepCalls, mem_sizeSteps, mem_positionSteps,
      mem_minsizeSteps, mem_maxsizeSteps, mem_resizableSteps, mem_transientSteps,
      mem_overrideredirectSteps, mem_windowtypeSteps, mem_topmostSteps,
      mem_toolwindowSteps, mem_alphaSteps] <;> aesop
  · simp [Toplevel.initTrace, Toplevel.configSteps, List.mem_append, List.mem_flatMap,
      mem_toplevelIconBlock, toolwindow_attr_mem_stepCalls, mem_sizeSteps,
      mem_positionSteps, mem_minsizeSteps, mem_maxsizeSteps, mem_resizableSteps,
      mem_transientSteps, mem_overrideredirectSteps, mem_windowtypeSteps,
      mem_topmostSteps, mem_toolwindowSteps, mem_alphaSteps] <;> aesop
  · intro a ha hx
    have hsteps : Toplevel.configSteps o ws =
        Toplevel.configSteps { o with alpha := none } ws ++ [Step.setAlpha true a] := by
      simp [Toplevel.configSteps, alphaSteps, ha, hx]
    have htr : Toplevel.initTrace o ws =
        ([TkCall.superInit, TkCall.queryWinsys] ++ toplevelIconBlock o.iconphoto ++
          (Toplevel.configSteps { o with alpha := none } ws).flatMap stepCalls) ++
          [TkCall.waitVisibility, TkCall.attributes "-alpha" (AttrV.rat a)] := by
      simp [Toplevel.initTrace, hsteps, List.flatMap_append, stepCalls, List.append_assoc]
    rw [htr]
    exact (List.suffix_append _ _).isInfix
  · intro a ic ha hx
    have hsteps : Window.configSteps o2 ws =
        Window.configSteps { o2 with alpha := none } ws ++ [Step.setAlpha true a] := by
      simp [Window.configSteps, alphaSteps, ha, hx]
    refine ⟨Window.preIconCalls o2 ++ windowIconBlock o2.iconphoto ic ++
        (Window.configSteps { o2 with alpha := none } ws).flatMap stepCalls,
      Window.apply_entry_type_class_binding ++ [TkCall.styleInit o2.themename], ?_⟩
    simp [Window.initTrace, Window.postIconCalls, hsteps, List.flatMap_append, stepCalls,
      List.append_assoc]

/-- Closed instance of `platform_attribute_branching`: on `'x11'` a
`windowtype='dialog'` toplevel gets the `-type` attribute call. -/
theorem platform_attribute_branching_witness :
    TkCall.attributes "-type" (AttrV.str "dialog") ∈
      Toplevel.initTrace { windowtype := some "dialog", alpha := none } "x11" := by
  have h := platform_attribute_branching
    { windowtype := some "dialog", alpha := none } {} "x11"
  exact (h.1 "dialog").mpr ⟨rfl, rfl⟩

/-! ### Geometry-call counting -/

theorem countGeom_titleSteps (t : String) :
    (([Step.setTitle t]).flatMap stepCalls).countP isGeometryCall = 0 := rfl

theorem countGeom_sizeSteps (x : Option (Int × Int)) :
    ((sizeSteps x).flatMap stepCalls).countP isGeometryCall =
      if x.isSome then 1 else 0 := by
  rcases x with _ | ⟨w, h⟩ <;> rfl

theorem countGeom_positionSteps (x : Option (Int × Int)) :
    ((positionSteps x).flatMap stepCalls).countP isGeometryCall =
      if x.isSome then 1 else 0 := by
  rcases x with _ | ⟨a, b⟩ <;> rfl

theorem countGeom_minsizeSteps (x : Option (Int × Int)) :
    ((minsizeSteps x).flatMap stepCalls).countP isGeometryCall = 0 := by
  rcases x with _ | ⟨w, h⟩ <;> rfl

theorem countGeom_maxsizeSteps (x : Option (Int × Int)) :
    ((maxsizeSteps x).flatMap stepCalls).countP isGeometryCall = 0 := by
  rcases x with _ | ⟨w, h⟩ <;> rfl

theorem countGeom_resizableSteps (x : Option (Bool × Bool)) :
    ((resizableSteps x).flatMap stepCalls).countP isGeometryCall = 0 := by
  rcases x with _ | ⟨w, h⟩ <;> rfl

theorem countGeom_transientSteps (x : Option String) :
    ((transientSteps x).flatMap stepCalls).countP isGeometryCall = 0 := by
  rcases x with _ | m <;> rfl

theorem countGeom_overrideredirectSteps (b : Bool) :
    ((overrideredirectSteps b).flatMap stepCalls).countP isGeometryCall = 0 := by
  cases b <;> rfl

theorem countGeom_windowtypeSteps (x : Option String) (ws : String) :
    ((windowtypeSteps x ws).flatMap stepCalls).countP isGeometryCall = 0 := by
  rcases x with _ | t
  · rfl
  · by_cases hw : ws = "x11" <;> simp [windowtypeSteps, hw, stepCalls, isGeometryCall]

theorem countGeom_topmostSteps (b : Bool) :
    ((topmostSteps b).flatMap stepCalls).countP isGeometryCall = 0 := by
  cases b <;> rfl

theorem countGeom_toolwindowSteps (b : Bool) (ws : String) :
    ((toolwindowSteps b ws).flatMap stepCalls).countP isGeometryCall = 0 := by
  cases b
  · rfl
  · by_cases hw : ws = "win32" <;> simp [toolwindowSteps, hw, stepCalls, isGeometryCall]

theorem countGeom_alphaSteps (al : Option ℚ) (ws : String) :
    ((alphaSteps al ws).flatMap stepCalls).countP isGeometryCall = 0 := by
  rcases al with _ | a
  · rfl
  · by_cases hw : ws = "x11" <;> simp [alphaSteps, hw, stepCalls, isGeometryCall]

theorem countGeom_pre (o : WindowOpts) :
    (Window.preIconCalls o).countP isGeometryCall = 0 := by
  rcases hb : o.hdpi <;> rcases hsc : o.scaling with _ | q <;>
    simp [Window.preIconCalls, hdpiCalls, scalingCalls, hb, hsc, isGeometryCall]

theorem countGeom_windowIcon (ip : Option String) (ic : Bool) :
    (windowIconBlock ip ic).countP isGeometryCall = 0 := by
  cases ic <;> simp [windowIconBlock, isGeometryCall]

theorem countGeom_toplevelIcon (ip : Option String) :
    (toplevelIconBlock ip).countP isGeometryCall = 0 := by
  rcases ip with _ | i <;> simp [toplevelIconBlock, isGeometryCall]

theorem countGeom_binds :
    Window.apply_entry_type_class_binding.countP isGeometryCall = 0 := rfl

theorem countGeom_style (t : String) :
    ([TkCall.styleInit t]).countP isGeometryCall = 0 := rfl

/-- Claim C9: with `size=(width, height)` the constructor issues a
geometry call with exactly the string `widthxheight`, and with
`position=(xpos, ypos)` a geometry call with exactly the string
`+xpos+ypos`; the two options are encoded independently, each
contributing its own geometry call, and no other geometry calls are
issued by construction. -/
theorem geometry_string_encoding (o : WindowOpts) (o2 : ToplevelOpts) (ws : String)
    (ic : Bool) :
    (∀ w h, o.size = some (w, h) →
        TkCall.geometry s!"{w}x{h}" ∈ Window.initTrace o ws ic)
    ∧ (∀ x y, o.position = some (x, y) →
        TkCall.geometry s!"+{x}+{y}" ∈ Window.initTrace o ws ic)
    ∧ (∀ w h, o2.size = some (w, h) →
        TkCall.geometry s!"{w}x{h}" ∈ Toplevel.initTrace o2 ws)
    ∧ (∀ x y, o2.position = some (x, y) →
        TkCall.geometry s!"+{x}+{y}" ∈ Toplevel.initTrace o2 ws)
    ∧ (Window.initTrace o ws ic).countP isGeometryCall
        = (if o.size.isSome then 1 else 0) + (if o.position.isSome then 1 else 0)
    ∧ (Toplevel.initTrace o2 ws).countP isGeometryCall
        = (if o2.size.isSome then 1 else 0) + (if o2.position.isSome then 1 else 0) := by
  refine ⟨?_, ?_, ?_, ?_, ?_, ?_⟩
  · intro w h hsz
    have hmem : Step.setSize w h ∈ sizeSteps o.size := by rw [hsz]; simp [sizeSteps]
    have hst : Step.setSize w h ∈ Window.configSteps o ws := by
      simp only [Window.configSteps, List.mem_append]; tauto
    exact window_stepCalls_in_trace o ws ic _ hst _ (by simp [stepCalls])
  · intro x y hps
    have hmem : Step.setPosition x y ∈ positionSteps o.position := by
      rw [hps]; simp [positionSteps]
    have hst : Step.setPosition x y ∈ Window.configSteps o ws := by
      simp only [Window.configSteps, List.mem_append]; tauto
    exact window_stepCalls_in_trace o ws ic _ hst _ (by simp [stepCalls])
  · intro w h hsz
    have hmem : Step.setSize w h ∈ sizeSteps o2.size := by rw [hsz]; simp [sizeSteps]
    have hst : Step.setSize w h ∈ Toplevel.configSteps o2 ws := by
      simp only [Toplevel.configSteps, List.mem_append]; tauto
    exact toplevel_stepCalls_in_trace o2 ws _ hst _ (by simp [stepCalls])
  · intro x y hps
    have hmem : Step.setPosition x y ∈ positionSteps o2.position := by
      rw [hps]; simp [positionSteps]
    have hst : Step.setPosition x y ∈ Toplevel.configSteps o2 ws := by
      simp only [Toplevel.configSteps, List.mem_append]; tauto
    exact toplevel_stepCalls_in_trace o2 ws _ hst _ (by simp [stepCalls])
  · simp [Window.initTrace, Window.postIconCalls, Window.configSteps,
      List.countP_append, List.flatMap_append, countGeom_pre, countGeom_windowIcon,
      countGeom_titleSteps, countGeom_sizeSteps, countGeom_positionSteps,
      countGeom_minsizeSteps, countGeom_maxsizeSteps, countGeom_resizableSteps,
      countGeom_transientSteps, countGeom_overrideredirectSteps, countGeom_alphaSteps,
      countGeom_binds, countGeom_style, stepCalls, isGeometryCall, List.countP_cons,
      List.countP_nil]
  · simp [Toplevel.initTrace, Toplevel.configSteps, List.countP_append,
      List.flatMap_append, countGeom_toplevelIcon, countGeom_titleSteps,
      countGeom_sizeSteps, countGeom_positionSteps, countGeom_minsizeSteps,
      countGeom_maxsizeSteps, countGeom_resizableSteps, countGeom_transientSteps,
      countGeom_overrideredirectSteps, countGeom_windowtypeSteps, countGeom_topmostSteps,
      countGeom_toolwindowSteps, countGeom_alphaSteps, stepCalls, isGeometryCall,
      List.countP_cons, List.countP_nil]

/-- Closed instance of `geometry_string_encoding`: a window built with
`size=(20, 10)` and `position=(7, 8)` issues geometry calls `20x10`
and `+7+8`, and exactly two geometry calls in total. -/
theorem geometry_string_encoding_witness :
    TkCall.geometry "20x10" ∈
      Window.initTrace { size := some (20, 10), position := some (7, 8), alpha := none }
        "aqua" false
    ∧ TkCall.geometry "+7+8" ∈
      Window.initTrace { size := some (20, 10), position := some (7, 8), alpha := none }
        "aqua" false
    ∧ (Window.initTrace { size := some (20, 10), position := some (7, 8), alpha := none }
        "aqua" false).countP isGeometryCall = 2 := by
  have h := geometry_string_encoding
    { size := some (20, 10), position := some (7, 8), alpha := none } {} "aqua" false
  exact ⟨h.1 20 10 rfl, h.2.1 7 8 rfl, h.2.2.2.2.1⟩

/-- Claim C10: in `Toplevel.__init__` the default-icon fallback of
`iconphoto or tkinter.PhotoImage(data=Icon.icon)` is unreachable: the
block runs only when `iconphoto` is truthy, in which case the `or`
yields the supplied icon, so a `Toplevel` built without `iconphoto`
gets no icon call at all — unlike `Window`, whose constructor always
attempts an icon assignment. -/
theorem toplevel_icon_fallback_unreachable (o : ToplevelOpts) (o2 : WindowOpts)
    (ws : String) :
    (o.iconphoto = none → ∀ b v, TkCall.iconphoto b v ∉ Toplevel.initTrace o ws)
    ∧ (∀ i, o.iconphoto = some i →
        TkCall.iconphoto false (IconV.given i) ∈ Toplevel.initTrace o ws)
    ∧ (∀ b, TkCall.iconphoto b IconV.defaultIcon ∉ Toplevel.initTrace o ws)
    ∧ (∀ i, o.iconphoto = some i → pyOr o.iconphoto IconV.defaultIcon = IconV.given i)
    ∧ TkCall.iconphoto true (pyOr o2.iconphoto IconV.defaultIcon) ∈
        Window.initTrace o2 ws false := by
  refine ⟨?_, ?_, ?_, ?_, ?_⟩
  · intro h b v hc
    simp [Toplevel.initTrace, List.mem_append, List.mem_flatMap, mem_toplevelIconBlock,
      h, iconphoto_not_stepCalls] at hc
  · intro i h
    exact List.mem_append.mpr (Or.inl (List.mem_append.mpr
      (Or.inr (mem_toplevelIconBlock.mpr ⟨i, h, rfl⟩))))
  · intro b hc
    simp [Toplevel.initTrace, List.mem_append, List.mem_flatMap, mem_toplevelIconBlock,
      iconphoto_not_stepCalls] at hc
  · intro i h
    rw [h]
    rfl
  · refine List.mem_append.mpr (Or.inl (List.mem_append.mpr (Or.inr ?_)))
    simp [windowIconBlock]

/-- Closed instance of `toplevel_icon_fallback_unreachable`: with a
supplied icon the `Toplevel` applies exactly that icon. -/
theorem toplevel_icon_fallback_unreachable_witness :
    TkCall.iconphoto false (IconV.given "app.png") ∈
      Toplevel.initTrace { iconphoto := some "app.png", alpha := none } "aqua" := by
  have h := toplevel_icon_fallback_unreachable
    { iconphoto := some "app.png", alpha := none } {} "aqua"
  exact h.2.1 "app.png" rfl
